import Mathlib

/-!
# Verification of the CloudComputeSDK client (`src/lib/sdkClient.ts`)

A shallow embedding of the request/response contract layer of the
`CloudComputeSDK` TypeScript class, together with theorems settling the
claims about URL construction, query-string building, header invariants,
JSON-body handling, and error normalization.

Modelling conventions:
* JSON values are modelled by the inductive `Json`; numbers are modelled at
  integer values (every numeric literal appearing in the claims is an
  integer-valued JavaScript number, on which `Number.prototype.toString`
  agrees with `Int` rendering).
* The result of `await response.json()` is modelled as an `Option Json`
  (`none` means the body failed to decode as JSON, i.e. `.json()` threw).
* The underlying `fetch` primitive is a parameter
  `fetchFn : FetchRequest → Except ε FetchResponse`; a `.error e` result
  models `fetch` rejecting with a transport error `e` (DNS, connection,
  timeout).  The error type `ε` is abstract: the request layer cannot
  inspect or rewrite transport errors.
* A JavaScript optional parameter (`x?: T`) is modelled as `Option T`;
  `undefined` and `null` both map to `none`.  JavaScript truthiness on the
  two value kinds used in query building is: a string is truthy iff it is
  non-empty, a (integer-valued) number is truthy iff it is non-zero.
-/

/-- JSON values.  Object fields are kept in insertion order, as JavaScript
objects do; values decoded by `JSON.parse` have pairwise-distinct keys. -/
inductive Json where
  | null : Json
  | bool (b : Bool) : Json
  | num (n : Int) : Json
  | str (s : String) : Json
  | arr (elems : List Json) : Json
  | obj (fields : List (String × Json)) : Json
deriving Repr

/-- The narrowing check in `request`
(`typeof parsed === 'object' && parsed !== null && 'error' in parsed &&
typeof (parsed as any).error === 'string'`): extract the `error` field of
`parsed` when `parsed` is a (non-array, non-null) object and that field is
a string.  JavaScript arrays and `null` fail the check even though their
`typeof`/`in` behaviour differs; neither has a string `error` property. -/
def Json.errorField : Json → Option String
  | .obj fields =>
      match fields.find? (fun kv => kv.1 == "error") with
      | some (_, .str s) => some s
      | _ => none
  | _ => none

/-- UTF-8 encoding of a single character, as a list of byte values. -/
def utf8Bytes (c : Char) : List Nat :=
  let n := c.toNat
  if n < 0x80 then [n]
  else if n < 0x800 then
    [0xC0 ||| (n >>> 6), 0x80 ||| (n &&& 0x3F)]
  else if n < 0x10000 then
    [0xE0 ||| (n >>> 12), 0x80 ||| ((n >>> 6) &&& 0x3F), 0x80 ||| (n &&& 0x3F)]
  else
    [0xF0 ||| (n >>> 18), 0x80 ||| ((n >>> 12) &&& 0x3F),
     0x80 ||| ((n >>> 6) &&& 0x3F), 0x80 ||| (n &&& 0x3F)]

/-- Uppercase hexadecimal digit. -/
def hexDigit (n : Nat) : Char :=
  if n < 10 then Char.ofNat (0x30 + n) else Char.ofNat (0x41 + (n - 10))

/-- Is byte `b` serialized verbatim by the `application/x-www-form-urlencoded`
serializer?  (ASCII alphanumerics and `*`, `-`, `.`, `_`.) -/
def formUrlSafe (b : Nat) : Bool :=
  (0x30 ≤ b && b ≤ 0x39) || (0x41 ≤ b && b ≤ 0x5A) || (0x61 ≤ b && b ≤ 0x7A) ||
    b == 0x2A || b == 0x2D || b == 0x2E || b == 0x5F

/-- Serialize one byte per the `application/x-www-form-urlencoded` rules used
by `URLSearchParams.toString()`: space becomes `+`, safe bytes are verbatim,
everything else is percent-encoded with uppercase hex. -/
def formUrlEncodeByte (b : Nat) : String :=
  if b == 0x20 then "+"
  else if formUrlSafe b then String.singleton (Char.ofNat b)
  else "%" ++ String.singleton (hexDigit (b / 16 % 16)) ++ String.singleton (hexDigit (b % 16))

/-- `application/x-www-form-urlencoded` serialization of a string
(percent-encoding over its UTF-8 bytes), as performed by
`URLSearchParams.toString()` on each name and value. -/
def formUrlEncode (s : String) : String :=
  s.data.foldl (fun acc c => acc ++ String.join ((utf8Bytes c).map formUrlEncodeByte)) ""

/-- A `URLSearchParams` object: an ordered list of name/value pairs. -/
def SearchParams := List (String × String)

/-- Drop every pair named `name` from the list. -/
def spRemove (l : List (String × String)) (name : String) : List (String × String) :=
  l.filter (fun kv => kv.1 != name)

/-- Replace the value of the first pair named `name` and remove the other
pairs with that name (the "set the value of the first such pair and remove
the others" clause of `URLSearchParams.set`). -/
def spReplaceFirst : List (String × String) → String → String → List (String × String)
  | [], _, _ => []
  | kv :: rest, name, value =>
      if kv.1 == name then (name, value) :: spRemove rest name
      else kv :: spReplaceFirst rest name value

/-- `URLSearchParams.set(name, value)`: if a pair with this name exists,
overwrite the first and drop duplicates; otherwise append a new pair. -/
def spSet (l : List (String × String)) (name value : String) : List (String × String) :=
  if l.any (fun kv => kv.1 == name) then spReplaceFirst l name value
  else l ++ [(name, value)]

/-- `URLSearchParams.toString()`: serialize the pairs as
`name=value` joined by `&`, form-urlencoding each name and value. -/
def spToString : List (String × String) → String
  | [] => ""
  | [kv] => formUrlEncode kv.1 ++ "=" ++ formUrlEncode kv.2
  | kv :: l => formUrlEncode kv.1 ++ "=" ++ formUrlEncode kv.2 ++ "&" ++ spToString l

/-- The query-string suffix appended to every list-style endpoint:
`searchParams.toString() ? `?${searchParams}` : ''` — a `?` followed by the
serialization when it is non-empty (a non-empty string is truthy), nothing
otherwise. -/
def spSuffix (l : List (String × String)) : String :=
  if spToString l != "" then "?" ++ spToString l else ""

/-- The source pattern `if (params?.x) searchParams.set('x', params.x)` for a
string-valued optional parameter: set only when present and truthy (a string
is truthy iff non-empty). -/
def setIfStr (sp : List (String × String)) (name : String) (v : Option String) :
    List (String × String) :=
  match v with
  | some s => if s != "" then spSet sp name s else sp
  | none => sp

/-- The source pattern
`if (params?.x) searchParams.set('x', params.x.toString())` for a
number-valued optional parameter: set only when present and truthy (an
integer-valued number is truthy iff non-zero), rendering the number with
`toString`. -/
def setIfNum (sp : List (String × String)) (name : String) (v : Option Int) :
    List (String × String) :=
  match v with
  | some n => if n != 0 then spSet sp name (toString n) else sp
  | none => sp

/-- `SDKConfig`: the `{baseUrl, apiKey}` construction record. -/
structure SDKConfig where
  baseUrl : String
  apiKey : String

/-- `config.baseUrl.replace(/\/$/, '')`: remove the trailing `/` when the
string ends in one (the regex matches exactly one slash at the very end of
the string; JavaScript `$` without the `m` flag matches only at the end). -/
def stripTrailingSlash (s : String) : String :=
  match s.data.getLast? with
  | some '/' => String.mk s.data.dropLast
  | _ => s

/-- The constructed `CloudComputeSDK` instance: `baseUrl` normalized by the
constructor, `apiKey` stored verbatim. -/
structure CloudComputeSDK where
  baseUrl : String
  apiKey : String

/-- `new CloudComputeSDK(config)`. -/
def CloudComputeSDK.create (config : SDKConfig) : CloudComputeSDK :=
  { baseUrl := stripTrailingSlash config.baseUrl, apiKey := config.apiKey }

/-- The `RequestInit` options passed to `request`; resource-group methods
pass `{}` (all defaults) or `{method, body}`.  `headers` models the optional
additional header map (`options.headers`). -/
structure RequestInit where
  method : Option String := none
  body : Option String := none
  headers : List (String × String) := []

/-- The request handed to `fetch`: the joined URL, the method/body from the
options, and the merged header list.  Header lookup takes the last pair with
a given name, so appending `options.headers` after the two fixed headers
models the object spread `{'Content-Type': ..., 'x-api-key': ..., ...options.headers}`
in which caller-supplied keys override the fixed ones. -/
structure FetchRequest where
  url : String
  method : Option String
  body : Option String
  headers : List (String × String)

/-- Look up a header by name; the last pair wins, matching the JavaScript
object-spread override semantics. -/
def lookupHeader (headers : List (String × String)) (name : String) : Option String :=
  (headers.reverse.find? (fun kv => kv.1 == name)).map (fun kv => kv.2)

/-- The response observed from `fetch`: its status code and the outcome of
`await response.json()` (`none` when the body is not valid JSON and the
decode throws). -/
structure FetchResponse where
  status : Nat
  jsonBody : Option Json

/-- `response.ok`: status in the 200–299 range. -/
def FetchResponse.ok (r : FetchResponse) : Bool :=
  200 ≤ r.status && r.status ≤ 299

/-- Outcome of a call through `request`: either the transport error thrown
by `fetch` itself, re-raised untouched (the source has no `try`/`catch`
around `await fetch`), or the `new Error(message)` thrown on a non-ok
status. -/
inductive RequestError (ε : Type) where
  | transport (e : ε) : RequestError ε
  | thrown (message : String) : RequestError ε
deriving Repr

/-- The request built by `request` before the round trip: the URL is the
stored base URL concatenated with the endpoint, the headers are the two
fixed headers followed by the caller's additional headers. -/
def buildFetchRequest (sdk : CloudComputeSDK) (endpoint : String)
    (options : RequestInit) : FetchRequest :=
  { url := sdk.baseUrl ++ endpoint
    method := options.method
    body := options.body
    headers := [("Content-Type", "application/json"), ("x-api-key", sdk.apiKey)]
      ++ options.headers }

/-- The synthetic object substituted when `response.json()` throws. -/
def parseFailureObject : Json :=
  .obj [("error", .str "Failed to parse response body as JSON")]

/-- `CloudComputeSDK.request`: build the URL and headers, perform the single
`fetch` round trip, decode the body tolerantly, and either return the parsed
body (ok status) or throw an error whose message is the body's string
`error` field when present and otherwise `HTTP <status>`. -/
def request {ε : Type} (sdk : CloudComputeSDK)
    (fetchFn : FetchRequest → Except ε FetchResponse)
    (endpoint : String) (options : RequestInit) : Except (RequestError ε) Json :=
  match fetchFn (buildFetchRequest sdk endpoint options) with
  | .error e => .error (.transport e)
  | .ok response =>
      let parsed : Json :=
        match response.jsonBody with
        | some j => j
        | none => parseFailureObject
      if response.ok then .ok parsed
      else
        let message : String :=
          match parsed.errorField with
          | some s => s
          | none => "HTTP " ++ toString response.status
        .error (.thrown message)

/-! ## Resource-group call-sites -/

/-- Optional parameters of `inventory.list`. -/
structure InventoryListParams where
  provider_id : Option String := none
  region_id : Option String := none
  instance_type : Option String := none
  min_vcpu : Option Int := none
  max_price_usd_hr : Option Int := none
  accel_model : Option String := none
  availability_type : Option String := none
  limit : Option Int := none
  offset : Option Int := none

/-- Optional parameters of `inventory.getByProvider`. -/
structure GetByProviderParams where
  region_code : Option String := none
  instance_type : Option String := none
  min_vcpu : Option Int := none
  max_price_usd_hr : Option Int := none
  limit : Option Int := none
  offset : Option Int := none

/-- `CreateDeploymentRequest`: the body of `deployments.create`. -/
structure CreateDeploymentRequest where
  cloud_inventory_id : String
  rental_duration_hours : Option Int := none
  deployment_type : Option String := none
  ssh_public_key : Option String := none
  tags : Option (List (String × Json)) := none

/-- Optional parameters of `deployments.list`. -/
structure DeploymentsListParams where
  limit : Option Int := none
  offset : Option Int := none
  status : Option String := none

/-- Optional parameters of `usage.getLogs`. -/
structure UsageLogsParams where
  limit : Option Int := none
  offset : Option Int := none
  start_date : Option String := none
  end_date : Option String := none
  endpoint : Option String := none

/-- Optional parameters of `usage.getSummary` and `usage.getBilling`. -/
structure UsagePeriodParams where
  start_date : Option String := none
  end_date : Option String := none

/-- The `searchParams` list built by `inventory.list`: nine conditional
`set` calls in the declared order on an initially empty `URLSearchParams`.
`params` is itself optional (`params?.x` is `undefined` when `params` is). -/
def inventoryListQuery (params : Option InventoryListParams) : List (String × String) :=
  let sp := setIfStr [] "provider_id" (params.bind (fun p => p.provider_id))
  let sp := setIfStr sp "region_id" (params.bind (fun p => p.region_id))
  let sp := setIfStr sp "instance_type" (params.bind (fun p => p.instance_type))
  let sp := setIfNum sp "min_vcpu" (params.bind (fun p => p.min_vcpu))
  let sp := setIfNum sp "max_price_usd_hr" (params.bind (fun p => p.max_price_usd_hr))
  let sp := setIfStr sp "accel_model" (params.bind (fun p => p.accel_model))
  let sp := setIfStr sp "availability_type" (params.bind (fun p => p.availability_type))
  let sp := setIfNum sp "limit" (params.bind (fun p => p.limit))
  setIfNum sp "offset" (params.bind (fun p => p.offset))

/-- The endpoint string of `inventory.list`. -/
def inventoryListEndpoint (params : Option InventoryListParams) : String :=
  "/sdk-inventory" ++ spSuffix (inventoryListQuery params)

/-- The endpoint string of `inventory.get`:
`` `/sdk-inventory/${inventoryId}` `` — verbatim template interpolation. -/
def inventoryGetEndpoint (inventoryId : String) : String :=
  "/sdk-inventory/" ++ inventoryId

/-- The `searchParams` list built by `inventory.getByProvider`: an
unconditional `set('provider', providerName)` followed by six conditional
sets in the declared order. -/
def getByProviderQuery (providerName : String) (params : Option GetByProviderParams) :
    List (String × String) :=
  let sp := spSet [] "provider" providerName
  let sp := setIfStr sp "region_code" (params.bind (fun p => p.region_code))
  let sp := setIfStr sp "instance_type" (params.bind (fun p => p.instance_type))
  let sp := setIfNum sp "min_vcpu" (params.bind (fun p => p.min_vcpu))
  let sp := setIfNum sp "max_price_usd_hr" (params.bind (fun p => p.max_price_usd_hr))
  let sp := setIfNum sp "limit" (params.bind (fun p => p.limit))
  setIfNum sp "offset" (params.bind (fun p => p.offset))

/-- The endpoint string of `inventory.getByProvider`:
`` `/sdk-inventory/provider/${providerName}` `` plus the query suffix. -/
def getByProviderEndpoint (providerName : String) (params : Option GetByProviderParams) :
    String :=
  "/sdk-inventory/provider/" ++ providerName ++ spSuffix (getByProviderQuery providerName params)

/-- The `searchParams` list built by `providers.getRegions` /
`providers.getTemplates` (one conditional `provider_id`). -/
def providerIdQuery (providerId : Option String) : List (String × String) :=
  setIfStr [] "provider_id" providerId

/-- The `searchParams` list built by `deployments.list`. -/
def deploymentsListQuery (params : Option DeploymentsListParams) : List (String × String) :=
  let sp := setIfNum [] "limit" (params.bind (fun p => p.limit))
  let sp := setIfNum sp "offset" (params.bind (fun p => p.offset))
  setIfStr sp "status" (params.bind (fun p => p.status))

/-- The endpoint string of `deployments.get`:
`` `/sdk-deployments/${deploymentId}` `` — verbatim template interpolation. -/
def deploymentsGetEndpoint (deploymentId : String) : String :=
  "/sdk-deployments/" ++ deploymentId

/-- The `searchParams` list built by `usage.getLogs`. -/
def usageLogsQuery (params : Option UsageLogsParams) : List (String × String) :=
  let sp := setIfNum [] "limit" (params.bind (fun p => p.limit))
  let sp := setIfNum sp "offset" (params.bind (fun p => p.offset))
  let sp := setIfStr sp "start_date" (params.bind (fun p => p.start_date))
  let sp := setIfStr sp "end_date" (params.bind (fun p => p.end_date))
  setIfStr sp "endpoint" (params.bind (fun p => p.endpoint))

/-- The `searchParams` list built by `usage.getSummary` / `usage.getBilling`. -/
def usagePeriodQuery (params : Option UsagePeriodParams) : List (String × String) :=
  let sp := setIfStr [] "start_date" (params.bind (fun p => p.start_date))
  setIfStr sp "end_date" (params.bind (fun p => p.end_date))

/-- Quote and escape a string as a JSON string literal, as `JSON.stringify`
does: `"` and `\` are backslash-escaped, the common control characters get
their short escapes, other control characters become `\u00XX`. -/
def jsonQuote (s : String) : String :=
  "\"" ++ s.data.foldl (fun acc c =>
    acc ++
      (if c = '"' then "\\\""
       else if c = '\\' then "\\\\"
       else if c = '\x08' then "\\b"
       else if c = '\x09' then "\\t"
       else if c = '\x0a' then "\\n"
       else if c = '\x0c' then "\\f"
       else if c = '\x0d' then "\\r"
       else if c.toNat < 0x20 then
         "\\u00" ++ String.singleton (hexDigit (c.toNat / 16)) ++
           String.singleton (hexDigit (c.toNat % 16))
       else String.singleton c)) "" ++ "\""

mutual

/-- `JSON.stringify` on a `Json` value (no indentation argument). -/
def Json.stringify : Json → String
  | .null => "null"
  | .bool b => if b then "true" else "false"
  | .num n => toString n
  | .str s => jsonQuote s
  | .arr xs => "[" ++ stringifyArr xs ++ "]"
  | .obj fs => "\x7b" ++ stringifyObj fs ++ "\x7d"

/-- Comma-joined serialization of array elements. -/
def stringifyArr : List Json → String
  | [] => ""
  | [x] => Json.stringify x
  | x :: xs => Json.stringify x ++ "," ++ stringifyArr xs

/-- Comma-joined serialization of object fields. -/
def stringifyObj : List (String × Json) → String
  | [] => ""
  | [kv] => jsonQuote kv.1 ++ ":" ++ Json.stringify kv.2
  | kv :: fs => jsonQuote kv.1 ++ ":" ++ Json.stringify kv.2 ++ "," ++ stringifyObj fs

end

/-- The JavaScript object a `CreateDeploymentRequest` argument denotes:
`cloud_inventory_id` followed by whichever optional fields are present, in
declared order.  `JSON.stringify` skips `undefined`-valued properties, so
absent optionals contribute no key. -/
def CreateDeploymentRequest.toJson (r : CreateDeploymentRequest) : Json :=
  .obj ([("cloud_inventory_id", Json.str r.cloud_inventory_id)]
    ++ (match r.rental_duration_hours with
        | some n => [("rental_duration_hours", Json.num n)]
        | none => [])
    ++ (match r.deployment_type with
        | some s => [("deployment_type", Json.str s)]
        | none => [])
    ++ (match r.ssh_public_key with
        | some s => [("ssh_public_key", Json.str s)]
        | none => [])
    ++ (match r.tags with
        | some t => [("tags", Json.obj t)]
        | none => []))

/-- One public method call of the SDK, with its arguments: the twelve
resource-group methods. -/
inductive SDKCall where
  | providersList : SDKCall
  | providersGetRegions (providerId : Option String) : SDKCall
  | providersGetTemplates (providerId : Option String) : SDKCall
  | inventoryList (params : Option InventoryListParams) : SDKCall
  | inventoryGet (inventoryId : String) : SDKCall
  | inventoryGetByProvider (providerName : String) (params : Option GetByProviderParams) : SDKCall
  | deploymentsCreate (params : CreateDeploymentRequest) : SDKCall
  | deploymentsList (params : Option DeploymentsListParams) : SDKCall
  | deploymentsGet (deploymentId : String) : SDKCall
  | usageGetLogs (params : Option UsageLogsParams) : SDKCall
  | usageGetSummary (params : Option UsagePeriodParams) : SDKCall
  | usageGetBilling (params : Option UsagePeriodParams) : SDKCall

/-- The endpoint string each method passes to `request`. -/
def SDKCall.endpoint : SDKCall → String
  | .providersList => "/sdk-providers"
  | .providersGetRegions pid => "/sdk-providers/regions" ++ spSuffix (providerIdQuery pid)
  | .providersGetTemplates pid => "/sdk-providers/templates" ++ spSuffix (providerIdQuery pid)
  | .inventoryList p => inventoryListEndpoint p
  | .inventoryGet id => inventoryGetEndpoint id
  | .inventoryGetByProvider name p => getByProviderEndpoint name p
  | .deploymentsCreate _ => "/sdk-deployments"
  | .deploymentsList p => "/sdk-deployments" ++ spSuffix (deploymentsListQuery p)
  | .deploymentsGet id => deploymentsGetEndpoint id
  | .usageGetLogs p => "/sdk-usage-tracking/logs" ++ spSuffix (usageLogsQuery p)
  | .usageGetSummary p => "/sdk-usage-tracking/summary" ++ spSuffix (usagePeriodQuery p)
  | .usageGetBilling p => "/sdk-usage-tracking/billing" ++ spSuffix (usagePeriodQuery p)

/-- The `RequestInit` options each method passes to `request`: only
`deployments.create` passes any (`POST` with the stringified body); every
other method passes `{}`, and none passes extra headers. -/
def SDKCall.options : SDKCall → RequestInit
  | .deploymentsCreate r => { method := some "POST", body := some r.toJson.stringify }
  | _ => {}

/-- The `FetchRequest` a method call hands to `fetch`. -/
def issuedRequest (sdk : CloudComputeSDK) (c : SDKCall) : FetchRequest :=
  buildFetchRequest sdk c.endpoint c.options

/-- Run one public method call against a given `fetch` behaviour. -/
def runCall {ε : Type} (sdk : CloudComputeSDK)
    (fetchFn : FetchRequest → Except ε FetchResponse) (c : SDKCall) :
    Except (RequestError ε) Json :=
  request sdk fetchFn c.endpoint c.options

/-- A `fetch` behaviour that always yields the same response (a stub
server). -/
def constFetch (r : FetchResponse) : FetchRequest → Except Empty FetchResponse :=
  fun _ => .ok r

/-- The claim-side rendering of one optional string parameter: omitted when
absent or empty, included as a single `name`/value pair otherwise. -/
def optStrPair (name : String) (v : Option String) : List (String × String) :=
  match v with
  | some s => if s != "" then [(name, s)] else []
  | none => []

/-- The claim-side rendering of one optional numeric parameter: omitted when
absent or zero, included as a single `name`/`toString` pair otherwise. -/
def optNumPair (name : String) (v : Option Int) : List (String × String) :=
  match v with
  | some n => if n != 0 then [(name, toString n)] else []
  | none => []

/-- Top-level field names of a JSON object, in order (empty for
non-objects). -/
def Json.topKeys : Json → List String
  | .obj fields => fields.map (fun kv => kv.1)
  | _ => []

/-- The claim-side list of keys a caller supplied in a
`CreateDeploymentRequest`: the required `cloud_inventory_id` plus each
optional field that is present, in declared order. -/
def suppliedKeys (r : CreateDeploymentRequest) : List String :=
  ["cloud_inventory_id"]
  ++ (if r.rental_duration_hours.isSome then ["rental_duration_hours"] else [])
  ++ (if r.deployment_type.isSome then ["deployment_type"] else [])
  ++ (if r.ssh_public_key.isSome then ["ssh_public_key"] else [])
  ++ (if r.tags.isSome then ["tags"] else [])

/-- Split a character list on `/`, keeping empty segments (the route
segments of a URL path). -/
def splitSlash : List Char → List (List Char)
  | [] => [[]]
  | c :: rest =>
      match splitSlash rest, c with
      | r, '/' => [] :: r
      | [], _ => [[c]]
      | seg :: segs, _ => (c :: seg) :: segs

/-- The path component of a request URL or endpoint string: everything up
to the first `?`. -/
def pathPart (s : String) : String :=
  String.mk (s.data.takeWhile (fun c => c != '?'))

/-- The `/`-separated segments of the path component of an endpoint
string — what the server routes on. -/
def pathSegments (s : String) : List String :=
  (splitSlash (pathPart s).data).map String.mk

/-- Does the string end in two consecutive path separators? -/
def endsInDoubledSep (b : String) : Bool :=
  b.data.getLast? == some '/' && b.data.dropLast.getLast? == some '/'

/-! ## Helper lemmas on query building -/

/-- `spSet` on a list that does not yet contain the name appends the pair. -/
theorem spSet_fresh (l : List (String × String)) (name value : String)
    (h : l.any (fun kv => kv.1 == name) = false) :
    spSet l name value = l ++ [(name, value)] := by
  unfold spSet
  rw [h]
  rfl

/-- On a list not containing the name, the conditional string `set` is an
append of the claim-side pair list. -/
theorem setIfStr_fresh (l : List (String × String)) (name : String) (v : Option String)
    (h : l.any (fun kv => kv.1 == name) = false) :
    setIfStr l name v = l ++ optStrPair name v := by
  cases v with
  | none => simp [setIfStr, optStrPair]
  | some s =>
      cases hs : s != "" with
      | false => simp [setIfStr, optStrPair, hs]
      | true => simp [setIfStr, optStrPair, hs, spSet_fresh l name s h]

/-- On a list not containing the name, the conditional numeric `set` is an
append of the claim-side pair list. -/
theorem setIfNum_fresh (l : List (String × String)) (name : String) (v : Option Int)
    (h : l.any (fun kv => kv.1 == name) = false) :
    setIfNum l name v = l ++ optNumPair name v := by
  cases v with
  | none => simp [setIfNum, optNumPair]
  | some n =>
      cases hn : n != 0 with
      | false => simp [setIfNum, optNumPair, hn]
      | true => simp [setIfNum, optNumPair, hn, spSet_fresh l name (toString n) h]

/-- A claim-side string pair never carries a different name. -/
theorem optStrPair_any (name m : String) (v : Option String) (h : (name == m) = false) :
    (optStrPair name v).any (fun kv => kv.1 == m) = false := by
  cases v with
  | none => rfl
  | some s => cases hs : s != "" <;> simp [optStrPair, hs, h]

/-- A claim-side numeric pair never carries a different name. -/
theorem optNumPair_any (name m : String) (v : Option Int) (h : (name == m) = false) :
    (optNumPair name v).any (fun kv => kv.1 == m) = false := by
  cases v with
  | none => rfl
  | some n => cases hn : n != 0 <;> simp [optNumPair, hn, h]

/-! ## Claim theorems -/

/-- C2.  For every response whose status is 200 and whose body fails to
decode as JSON, the call resolves successfully with the synthetic object
`{error: "Failed to parse response body as JSON"}` instead of throwing a
decode exception. -/
theorem request_200_nonjson_resolves_with_parse_failure_object :
    ∀ (cfg : SDKConfig) (endpoint : String) (options : RequestInit),
      request (CloudComputeSDK.create cfg) (constFetch ⟨200, none⟩) endpoint options =
        .ok parseFailureObject := by
  intro cfg endpoint options
  rfl

/-- C9.  If the underlying fetch primitive fails with a transport error,
that error propagates to the caller unmodified, for every resource-group
method call: the request layer does not catch it, does not replace it with
the synthetic decode-failure object, and does not rewrap its message. -/
theorem transport_error_propagates_unmodified :
    ∀ (ε : Type) (cfg : SDKConfig) (e : ε) (c : SDKCall),
      runCall (CloudComputeSDK.create cfg) (fun _ => .error e) c =
        .error (.transport e) := by
  intro ε cfg e c
  rfl

/-- C5.  A client constructed with `baseUrl = "https://host/v1/"` and one
constructed with `baseUrl = "https://host/v1"` produce byte-identical
request URLs for every endpoint call. -/
theorem trailing_slash_baseurl_same_urls :
    ∀ (apiKey : String) (c : SDKCall),
      (issuedRequest (CloudComputeSDK.create ⟨"https://host/v1/", apiKey⟩) c).url =
      (issuedRequest (CloudComputeSDK.create ⟨"https://host/v1", apiKey⟩) c).url := by
  intro apiKey c
  show stripTrailingSlash "https://host/v1/" ++ c.endpoint =
    stripTrailingSlash "https://host/v1" ++ c.endpoint
  rw [show stripTrailingSlash "https://host/v1/" = stripTrailingSlash "https://host/v1"
    from by decide]

/-- No resource-group method passes extra headers to `request`. -/
theorem SDKCall.options_headers (c : SDKCall) : c.options.headers = [] := by
  cases c <;> rfl

/-- C6.  Every issued request, for every resource-group method with no
caller-supplied extra headers, carries the header `x-api-key` equal to the
configured API key and the header `Content-Type` equal to
`application/json`. -/
theorem issued_request_fixed_headers :
    ∀ (cfg : SDKConfig) (c : SDKCall),
      lookupHeader (issuedRequest (CloudComputeSDK.create cfg) c).headers "x-api-key" =
        some cfg.apiKey ∧
      lookupHeader (issuedRequest (CloudComputeSDK.create cfg) c).headers "Content-Type" =
        some "application/json" := by
  intro cfg c
  unfold issuedRequest buildFetchRequest lookupHeader
  rw [SDKCall.options_headers c]
  simp [CloudComputeSDK.create, List.find?]

/-- C1.  For every non-2xx response status whose body decodes as JSON, the
call throws an error whose message is the decoded body's string `error`
field when present and otherwise `HTTP <status>`; in particular status 400
with body `{"error":"Insufficient wallet balance"}` yields exactly
`Insufficient wallet balance`, and status 500 with a body lacking a string
`error` field yields exactly `HTTP 500`. -/
theorem non2xx_error_message :
    (∀ (cfg : SDKConfig) (endpoint : String) (options : RequestInit)
        (status : Nat) (body : Json),
        (200 ≤ status && status ≤ 299) = false →
        request (CloudComputeSDK.create cfg) (constFetch ⟨status, some body⟩)
            endpoint options =
          .error (.thrown (body.errorField.getD ("HTTP " ++ toString status))))
    ∧ request (CloudComputeSDK.create ⟨"https://host", "k"⟩)
        (constFetch ⟨400, some (.obj [("error", .str "Insufficient wallet balance")])⟩)
        "/sdk-deployments" {} = .error (.thrown "Insufficient wallet balance")
    ∧ request (CloudComputeSDK.create ⟨"https://host", "k"⟩)
        (constFetch ⟨500, some (.obj [("message", .str "boom")])⟩)
        "/sdk-deployments" {} = .error (.thrown "HTTP 500") := by
  refine ⟨?_, by rfl, by rfl⟩
  intro cfg endpoint options status body h
  unfold request constFetch
  simp only [FetchResponse.ok, h, Bool.false_eq_true, if_false]
  cases hb : body.errorField <;> simp [hb, Option.getD]

/-- Witness for C1 at a concrete non-2xx status and body. -/
theorem non2xx_error_message_witness :
    ((200 ≤ 404 && 404 ≤ 299) = false)
    ∧ request (CloudComputeSDK.create ⟨"https://host", "k"⟩)
        (constFetch ⟨404, some (.obj [("error", .str "not found")])⟩)
        "/sdk-providers" {} =
        .error (.thrown ((Json.obj [("error", .str "not found")]).errorField.getD
          ("HTTP " ++ toString 404))) :=
  ⟨by decide,
   non2xx_error_message.1 ⟨"https://host", "k"⟩ "/sdk-providers" {} 404
     (.obj [("error", .str "not found")]) (by decide)⟩

/-- C3.  `inventory.list` builds its query from the optional parameters in
the fixed declared order, omitting a parameter whose value is absent, null,
zero, or the empty string and including every other value as a
`name`/string-value pair; in particular
`{min_vcpu: 4, max_price_usd_hr: 1.0, limit: 20}` produces exactly the
query string `min_vcpu=4&max_price_usd_hr=1&limit=20`. -/
theorem inventory_list_query_order_and_omission :
    (∀ p : InventoryListParams,
      inventoryListQuery (some p) =
        optStrPair "provider_id" p.provider_id ++ optStrPair "region_id" p.region_id ++
        optStrPair "instance_type" p.instance_type ++ optNumPair "min_vcpu" p.min_vcpu ++
        optNumPair "max_price_usd_hr" p.max_price_usd_hr ++
        optStrPair "accel_model" p.accel_model ++
        optStrPair "availability_type" p.availability_type ++
        optNumPair "limit" p.limit ++ optNumPair "offset" p.offset)
    ∧ inventoryListEndpoint
        (some { min_vcpu := some 4, max_price_usd_hr := some 1, limit := some 20 }) =
        "/sdk-inventory?min_vcpu=4&max_price_usd_hr=1&limit=20" := by
  refine ⟨?_, by decide⟩
  intro p
  simp only [inventoryListQuery, Option.some_bind]
  rw [setIfStr_fresh [] "provider_id" _ rfl]
  rw [setIfStr_fresh _ "region_id" _
    (by simp [List.any_append, optStrPair_any, optNumPair_any])]
  rw [setIfStr_fresh _ "instance_type" _
    (by simp [List.any_append, optStrPair_any, optNumPair_any])]
  rw [setIfNum_fresh _ "min_vcpu" _
    (by simp [List.any_append, optStrPair_any, optNumPair_any])]
  rw [setIfNum_fresh _ "max_price_usd_hr" _
    (by simp [List.any_append, optStrPair_any, optNumPair_any])]
  rw [setIfStr_fresh _ "accel_model" _
    (by simp [List.any_append, optStrPair_any, optNumPair_any])]
  rw [setIfStr_fresh _ "availability_type" _
    (by simp [List.any_append, optStrPair_any, optNumPair_any])]
  rw [setIfNum_fresh _ "limit" _
    (by simp [List.any_append, optStrPair_any, optNumPair_any])]
  rw [setIfNum_fresh _ "offset" _
    (by simp [List.any_append, optStrPair_any, optNumPair_any])]
  simp [List.append_assoc]

/-- C7.  `inventory.getByProvider(providerName, params)` sets the query
parameter `provider` to `providerName` unconditionally, so the issued query
string always contains `provider=<name>` — also when the name is the empty
string. -/
theorem getByProvider_always_sets_provider :
    (∀ (providerName : String) (params : Option GetByProviderParams),
      ∃ rest : String,
        getByProviderEndpoint providerName params =
          "/sdk-inventory/provider/" ++ providerName ++ "?provider=" ++
            formUrlEncode providerName ++ rest)
    ∧ getByProviderEndpoint "" none = "/sdk-inventory/provider/?provider=" := by
  refine ⟨?_, by decide⟩
  intro pn params
  have hq : getByProviderQuery pn params =
      ("provider", pn) ::
        (optStrPair "region_code" (params.bind fun p => p.region_code) ++
         optStrPair "instance_type" (params.bind fun p => p.instance_type) ++
         optNumPair "min_vcpu" (params.bind fun p => p.min_vcpu) ++
         optNumPair "max_price_usd_hr" (params.bind fun p => p.max_price_usd_hr) ++
         optNumPair "limit" (params.bind fun p => p.limit) ++
         optNumPair "offset" (params.bind fun p => p.offset)) := by
    simp only [getByProviderQuery]
    rw [spSet_fresh [] "provider" _ rfl]
    rw [setIfStr_fresh _ "region_code" _
      (by simp [List.any_append, optStrPair_any, optNumPair_any])]
    rw [setIfStr_fresh _ "instance_type" _
      (by simp [List.any_append, optStrPair_any, optNumPair_any])]
    rw [setIfNum_fresh _ "min_vcpu" _
      (by simp [List.any_append, optStrPair_any, optNumPair_any])]
    rw [setIfNum_fresh _ "max_price_usd_hr" _
      (by simp [List.any_append, optStrPair_any, optNumPair_any])]
    rw [setIfNum_fresh _ "limit" _
      (by simp [List.any_append, optStrPair_any, optNumPair_any])]
    rw [setIfNum_fresh _ "offset" _
      (by simp [List.any_append, optStrPair_any, optNumPair_any])]
    simp [List.append_assoc]
  have henc : formUrlEncode "provider" = "provider" := by decide
  unfold getByProviderEndpoint
  rw [hq]
  cases h : (optStrPair "region_code" (params.bind fun p => p.region_code) ++
         optStrPair "instance_type" (params.bind fun p => p.instance_type) ++
         optNumPair "min_vcpu" (params.bind fun p => p.min_vcpu) ++
         optNumPair "max_price_usd_hr" (params.bind fun p => p.max_price_usd_hr) ++
         optNumPair "limit" (params.bind fun p => p.limit) ++
         optNumPair "offset" (params.bind fun p => p.offset)) with
  | nil =>
      refine ⟨"", ?_⟩
      simp [spSuffix, spToString, bne, henc]
      rw [if_neg (by intro hc; have := congrArg String.data hc; simp at this)]
      apply String.ext
      simp
  | cons kv t =>
      refine ⟨"&" ++ spToString (kv :: t), ?_⟩
      simp [spSuffix, spToString, bne, henc]
      rw [if_neg (by intro hc; have := congrArg String.data hc; simp at this)]
      apply String.ext
      simp

/-- C8.  `deployments.create` sends a POST whose JSON body contains exactly
the keys the caller supplied, with no injected defaults; the two-key example
serializes to exactly those two keys, and a 200 response body is returned to
the caller unmodified. -/
theorem deployments_create_exact_body_and_passthrough :
    (∀ r : CreateDeploymentRequest,
        (SDKCall.deploymentsCreate r).options.method = some "POST" ∧
        (SDKCall.deploymentsCreate r).options.body = some r.toJson.stringify ∧
        r.toJson.topKeys = suppliedKeys r)
    ∧ ({ cloud_inventory_id := "abc", rental_duration_hours := some 24 } :
          CreateDeploymentRequest).toJson.stringify =
        "\x7b\"cloud_inventory_id\":\"abc\",\"rental_duration_hours\":24\x7d"
    ∧ (∀ (cfg : SDKConfig) (j : Json) (r : CreateDeploymentRequest),
        runCall (CloudComputeSDK.create cfg) (constFetch ⟨200, some j⟩)
          (.deploymentsCreate r) = .ok j) := by
  refine ⟨?_, by decide, fun cfg j r => rfl⟩
  intro r
  refine ⟨rfl, rfl, ?_⟩
  obtain ⟨id, rd, dt, ssh, tg⟩ := r
  cases rd <;> cases dt <;> cases ssh <;> cases tg <;>
    simp [CreateDeploymentRequest.toJson, Json.topKeys, suppliedKeys]

/-- C10.  Path identifiers are interpolated verbatim (no percent-encoding,
no validation): `inventory.get`, `deployments.get` and the path segment of
`inventory.getByProvider` splice the id into the path unchanged;
`inventory.get("")` yields the path `/sdk-inventory/` with an empty final
segment; an id containing `?` truncates the routed path and an id containing
`/` adds a route segment; values placed in the query string via
`URLSearchParams` are percent-encoded instead. -/
theorem path_ids_verbatim_query_values_encoded :
    (∀ id : String, inventoryGetEndpoint id = "/sdk-inventory/" ++ id)
    ∧ (∀ id : String, deploymentsGetEndpoint id = "/sdk-deployments/" ++ id)
    ∧ (∀ (id : String) (params : Option GetByProviderParams), ∃ q : String,
        getByProviderEndpoint id params = "/sdk-inventory/provider/" ++ id ++ q)
    ∧ inventoryGetEndpoint "" = "/sdk-inventory/"
    ∧ pathPart (inventoryGetEndpoint "abc?x=1") = "/sdk-inventory/abc"
    ∧ pathSegments (inventoryGetEndpoint "a/b") = ["", "sdk-inventory", "a", "b"]
    ∧ pathSegments (inventoryGetEndpoint "ab") = ["", "sdk-inventory", "ab"]
    ∧ inventoryListEndpoint (some { instance_type := some "a?b" }) =
        "/sdk-inventory?instance_type=a%3Fb" := by
  refine ⟨fun id => rfl, fun id => rfl,
    fun id params => ⟨spSuffix (getByProviderQuery id params), rfl⟩,
    by decide, by decide, by decide, by decide, by decide⟩

/-- C4 counterexample.  For the base URL `https://host/v1//` (which ends in
two separators) and the leading-separator endpoint `/sdk-providers`, the
constructor strips only one trailing separator, the normalized base still
ends in a separator, and the joined URL contains a doubled separator at the
join point — refuting the claim that the join never doubles. -/
theorem join_doubled_separator_counterexample :
    ("/sdk-providers").data.head? = some '/'
    ∧ (CloudComputeSDK.create ⟨"https://host/v1//", "key"⟩).baseUrl.data.getLast? = some '/'
    ∧ (CloudComputeSDK.create ⟨"https://host/v1//", "key"⟩).baseUrl ++ "/sdk-providers" =
        "https://host/v1//sdk-providers" := by
  refine ⟨by decide, by decide, by decide⟩

/-- C4 (amended).  The constructor strips exactly one trailing separator
when present, and for every base URL that does not end in two consecutive
separators, concatenating the normalized base URL with an endpoint path
beginning with a separator produces no doubled separator at the join point
(the normalized base does not end in a separator). -/
theorem baseurl_strip_one_separator_no_double_join :
    (∀ b : String,
        (b.data.getLast? = some '/' → stripTrailingSlash b ++ "/" = b)
        ∧ (b.data.getLast? ≠ some '/' → stripTrailingSlash b = b))
    ∧ (∀ b path : String,
        endsInDoubledSep b = false →
        path.data.head? = some '/' →
        (stripTrailingSlash b).data.getLast? ≠ some '/') := by
  constructor
  · intro b
    constructor
    · intro h
      simp only [stripTrailingSlash, h]
      apply String.ext
      simp [List.dropLast_append_getLast? '/' h]
    · intro h
      unfold stripTrailingSlash
      split
      · next heq => exact absurd heq h
      · rfl
  · intro b path hdb _
    unfold stripTrailingSlash
    split
    · next heq =>
        intro hc
        simp only [endsInDoubledSep, heq] at hdb
        simp at hc
        simp [hc] at hdb
    · next hne => exact hne

/-- Witness for the amended C4 at `baseUrl = "https://host/v1/"` and
endpoint `/sdk-providers`. -/
theorem baseurl_strip_one_separator_no_double_join_witness :
    (("https://host/v1/").data.getLast? = some '/')
    ∧ stripTrailingSlash "https://host/v1/" ++ "/" = "https://host/v1/"
    ∧ (endsInDoubledSep "https://host/v1/" = false)
    ∧ ("/sdk-providers").data.head? = some '/'
    ∧ (stripTrailingSlash "https://host/v1/").data.getLast? ≠ some '/' :=
  ⟨by decide,
   (baseurl_strip_one_separator_no_double_join.1 "https://host/v1/").1 (by decide),
   by decide, by decide,
   baseurl_strip_one_separator_no_double_join.2 "https://host/v1/" "/sdk-providers"
     (by decide) (by decide)⟩
